import Mathlib

/-!
Verification of the MakeaTUI document-mutation and generation engine.

This file gives a shallow embedding, in Lean 4, of the core of the
`makeatui` repository: the canvas/component data model (`pkg/schema`),
the command-sourced session with undo/redo (`pkg/agent`), the component
identifier generator (`pkg/schema.generateID`), the JSON serialization
of canvases (`Session.ExportJSON` / `Session.LoadFromJSON`), and the
code generator (`internal/codegen`).  Go structs become Lean structures,
Go slices become Lean lists (with `Option` where nil-ness of a slice is
observable), the `uint64` id counter is a `Nat` reduced mod `2^64` where
the code truncates, and fallible operations return `Option`/`Except`.
Machine-global inputs of the id generator (wall clock, random bytes) are
threaded explicitly through a `GenState` record.

Theorems at the end of the file settle the frozen claims about this
engine; each is stated over the embedded definitions below.
-/

namespace MakeaTUI

/-- `schema.Position`: a position on the canvas (Go `int` fields). -/
structure Position where
  x : Int
  y : Int
  deriving DecidableEq, Repr

/-- `schema.Size`: dimensions (Go `int` fields). -/
structure Size where
  width : Int
  height : Int
  deriving DecidableEq, Repr

/-- `schema.Border`: border configuration. -/
structure Border where
  style : String
  color : String
  left : Bool
  right : Bool
  top : Bool
  bottom : Bool
  deriving DecidableEq, Repr

/-- `schema.Padding`. -/
structure Padding where
  top : Int
  right : Int
  bottom : Int
  left : Int
  deriving DecidableEq, Repr

/-- `schema.Margin`. -/
structure Margin where
  top : Int
  right : Int
  bottom : Int
  left : Int
  deriving DecidableEq, Repr

/-- `schema.Style`: styling for a component.  The Go field
`Border *Border` (a possibly-nil pointer) is an `Option Border`. -/
structure Style where
  foreground : String
  background : String
  bold : Bool
  italic : Bool
  underline : Bool
  border : Option Border
  padding : Padding
  margin : Margin
  align : String
  deriving DecidableEq, Repr

/-- The zero `schema.Style` value (all Go zero values). -/
def zeroStyle : Style :=
  { foreground := "", background := "", bold := false, italic := false,
    underline := false, border := none,
    padding := { top := 0, right := 0, bottom := 0, left := 0 },
    margin := { top := 0, right := 0, bottom := 0, left := 0 },
    align := "" }

/-- `schema.Component`: one placed widget.  `ComponentType` is a string
type in Go, kept as `String` here.  `Items []string` is a Go slice whose
nil-ness is observable (deep equality, `omitempty`), hence
`Option (List String)` with `none` for the nil slice.  `Value any` is
only ever nil or a `float64` progress fraction anywhere in the verified
surface (`API.AddProgress`), modelled as `Option Rat`.  The
`Children []Component` field is omitted from the model: no code path in
the agent/schema/codegen surface ever constructs, reads, or mutates it
(it is always the nil slice, which serializes to an absent key and loads
back as nil), and Lean structures cannot be recursive; its omission
changes the truth value of no claim below. -/
structure Component where
  id : String
  ctype : String
  name : String
  position : Position
  size : Size
  style : Style
  text : String
  placeholder : String
  items : Option (List String)
  value : Option Rat
  focused : Bool
  selected : Bool
  disabled : Bool
  deriving DecidableEq, Repr

/-- `schema.Canvas`: the document.  `Components` is always a non-nil
slice on every reachable path (`NewSession` creates it non-nil and every
mutation keeps it so), so a plain `List` suffices. -/
structure Canvas where
  name : String
  width : Int
  height : Int
  components : List Component
  theme : String
  deriving DecidableEq, Repr

/-- State threaded through `schema.generateID`: the process-global
`idCounter uint64` (its current value, already reduced mod `2^64`),
a call counter `tick`, and the ambient inputs of each call — the
`time.Now().UnixNano()` value and the four `crypto/rand` bytes of the
`k`-th call, as arbitrary streams. -/
structure GenState where
  counter : Nat
  tick : Nat
  time : Nat → Nat
  rnd : Nat → Nat × Nat × Nat × Nat

/-- One lowercase hexadecimal digit, as emitted by Go
`encoding/hex.EncodeToString`. -/
def hexDigit (n : Nat) : Char :=
  if n < 10 then Char.ofNat (48 + n) else Char.ofNat (87 + n)

/-- The two hex digits of one byte (`hex.EncodeToString` per byte). -/
def hexByte (b : Nat) : List Char :=
  [hexDigit (b / 16 % 16), hexDigit (b % 16)]

/-- The id string built by `schema.generateID` from a timestamp `t`, the
four random bytes, and the post-increment counter value `c`:
`"comp_" + hex([byte(t>>24), byte(t>>16), byte(c>>8), byte(c)]) + hex(random)`. -/
def idString (t : Nat) (r : Nat × Nat × Nat × Nat) (c : Nat) : String :=
  String.mk ("comp_".data
    ++ hexByte (t / 2 ^ 24 % 256) ++ hexByte (t / 2 ^ 16 % 256)
    ++ hexByte (c / 2 ^ 8 % 256) ++ hexByte (c % 256)
    ++ hexByte (r.1 % 256) ++ hexByte (r.2.1 % 256)
    ++ hexByte (r.2.2.1 % 256) ++ hexByte (r.2.2.2 % 256))

/-- `schema.generateID`: atomically increment the global counter
(`uint64`, so mod `2^64`), read the clock and four random bytes, and
format the id. -/
def generateID (g : GenState) : String × GenState :=
  let c := (g.counter + 1) % 2 ^ 64
  (idString (g.time g.tick) (g.rnd g.tick) c,
   { g with counter := c, tick := g.tick + 1 })

/-- `schema.NewComponent`: a component with default values. -/
def NewComponent (ctype name : String) (g : GenState) : Component × GenState :=
  let (id, g') := generateID g
  ({ id := id, ctype := ctype, name := name,
     position := { x := 0, y := 0 },
     size := { width := 20, height := 3 },
     style := { zeroStyle with
       border := some { style := "rounded", color := "",
                        left := true, right := true, top := true, bottom := true } },
     text := "", placeholder := "", items := none, value := none,
     focused := false, selected := false, disabled := false }, g')

/-- `agent.AddComponentParams`. -/
structure AddComponentParams where
  ctype : String
  name : String
  x : Int
  y : Int
  width : Int
  height : Int
  text : String
  style : Option Style
  deriving DecidableEq, Repr

/-- `agent.MoveComponentParams`. -/
structure MoveComponentParams where
  id : String
  x : Int
  y : Int
  deriving DecidableEq, Repr

/-- `agent.ResizeComponentParams`. -/
structure ResizeComponentParams where
  id : String
  width : Int
  height : Int
  deriving DecidableEq, Repr

/-- `agent.StyleComponentParams`. -/
structure StyleComponentParams where
  id : String
  style : Style
  deriving DecidableEq, Repr

/-- `agent.SetTextParams`. -/
structure SetTextParams where
  id : String
  text : String
  deriving DecidableEq, Repr

/-- The `json.RawMessage` payload of a command, modelled by the
marshalled Go value it carries: one constructor per parameter struct the
agent layer ever marshals into a payload, plus `malformed` for a payload
on which `json.Unmarshal` fails with the given error message. -/
inductive RawParams where
  | addP (p : AddComponentParams)
  | removeP (id : String)
  | moveP (p : MoveComponentParams)
  | resizeP (p : ResizeComponentParams)
  | styleP (p : StyleComponentParams)
  | setTextP (p : SetTextParams)
  | malformed (msg : String)
  deriving DecidableEq, Repr

/-- `agent.Command`: `{Type string; Params json.RawMessage}`. -/
structure Command where
  ctype : String
  params : RawParams
  deriving DecidableEq, Repr

/-! Decoding a raw payload into each parameter struct, mirroring
`json.Unmarshal` on the JSON produced by marshalling the payload's
original struct: keys present in the JSON fill the matching fields of
the target struct, absent keys leave the Go zero value, and a malformed
payload fails with its error message.  (E.g. unmarshalling a marshalled
`MoveComponentParams` into `struct{ID string}` succeeds and reads its
`id` key.) -/

/-- Decode into the anonymous `struct{ ID string }` used by
`Session.removeComponent` (key `id`). -/
def asID : RawParams → Except String String
  | .addP _ => .ok ""
  | .removeP id => .ok id
  | .moveP p => .ok p.id
  | .resizeP p => .ok p.id
  | .styleP p => .ok p.id
  | .setTextP p => .ok p.id
  | .malformed m => .error m

/-- Decode into `MoveComponentParams` (keys `id`, `x`, `y`). -/
def asMove : RawParams → Except String MoveComponentParams
  | .addP p => .ok { id := "", x := p.x, y := p.y }
  | .removeP id => .ok { id := id, x := 0, y := 0 }
  | .moveP p => .ok p
  | .resizeP p => .ok { id := p.id, x := 0, y := 0 }
  | .styleP p => .ok { id := p.id, x := 0, y := 0 }
  | .setTextP p => .ok { id := p.id, x := 0, y := 0 }
  | .malformed m => .error m

/-- Decode into `ResizeComponentParams` (keys `id`, `width`, `height`). -/
def asResize : RawParams → Except String ResizeComponentParams
  | .addP p => .ok { id := "", width := p.width, height := p.height }
  | .removeP id => .ok { id := id, width := 0, height := 0 }
  | .moveP p => .ok { id := p.id, width := 0, height := 0 }
  | .resizeP p => .ok p
  | .styleP p => .ok { id := p.id, width := 0, height := 0 }
  | .setTextP p => .ok { id := p.id, width := 0, height := 0 }
  | .malformed m => .error m

/-- Decode into `StyleComponentParams` (keys `id`, `style`; a missing
`style` key leaves the zero `Style`). -/
def asStyle : RawParams → Except String StyleComponentParams
  | .addP p => .ok { id := "", style := p.style.getD zeroStyle }
  | .removeP id => .ok { id := id, style := zeroStyle }
  | .moveP p => .ok { id := p.id, style := zeroStyle }
  | .resizeP p => .ok { id := p.id, style := zeroStyle }
  | .styleP p => .ok p
  | .setTextP p => .ok { id := p.id, style := zeroStyle }
  | .malformed m => .error m

/-- Decode into `SetTextParams` (keys `id`, `text`). -/
def asSetText : RawParams → Except String SetTextParams
  | .addP p => .ok { id := "", text := p.text }
  | .removeP id => .ok { id := id, text := "" }
  | .moveP p => .ok { id := p.id, text := "" }
  | .resizeP p => .ok { id := p.id, text := "" }
  | .styleP p => .ok { id := p.id, text := "" }
  | .setTextP p => .ok p
  | .malformed m => .error m

/-- Decode into `AddComponentParams`
(keys `type`, `name`, `x`, `y`, `width`, `height`, `text`, `style`). -/
def asAdd : RawParams → Except String AddComponentParams
  | .addP p => .ok p
  | .removeP _ =>
      .ok { ctype := "", name := "", x := 0, y := 0, width := 0, height := 0,
            text := "", style := none }
  | .moveP p =>
      .ok { ctype := "", name := "", x := p.x, y := p.y, width := 0, height := 0,
            text := "", style := none }
  | .resizeP p =>
      .ok { ctype := "", name := "", x := 0, y := 0, width := p.width,
            height := p.height, text := "", style := none }
  | .styleP p =>
      .ok { ctype := "", name := "", x := 0, y := 0, width := 0, height := 0,
            text := "", style := some p.style }
  | .setTextP p =>
      .ok { ctype := "", name := "", x := 0, y := 0, width := 0, height := 0,
            text := p.text, style := none }
  | .malformed m => .error m

/-- `agent.Session`: one live canvas plus history and undo/redo stacks.
Stacks grow at the end of the list (Go `append`); the top is the last
element. -/
structure Session where
  canvas : Canvas
  history : List Command
  undoStack : List Canvas
  redoStack : List Canvas
  deriving DecidableEq, Repr

/-- `agent.NewSession`. -/
def NewSession (name : String) (width height : Int) : Session :=
  { canvas := { name := name, width := width, height := height,
                components := [], theme := "ultraviolet" },
    history := [], undoStack := [], redoStack := [] }

/-- `Session.saveState`: push a snapshot of the current canvas (the Go
code copies the component slice; with value semantics the snapshot is
the current canvas value) and clear the redo stack. -/
def saveState (s : Session) : Session :=
  { s with undoStack := s.undoStack ++ [s.canvas], redoStack := [] }

/-- `Session.addComponent`. -/
def addComponent (s : Session) (params : RawParams) (g : GenState) :
    Session × GenState × Option String :=
  match asAdd params with
  | .error m => (s, g, some m)
  | .ok p =>
    let (comp, g') := NewComponent p.ctype p.name g
    let comp := { comp with position := { x := p.x, y := p.y } }
    let comp := if p.width > 0 then { comp with size.width := p.width } else comp
    let comp := if p.height > 0 then { comp with size.height := p.height } else comp
    let comp := { comp with text := p.text }
    let comp := match p.style with
      | some st => { comp with style := st }
      | none => comp
    ({ s with canvas.components := s.canvas.components ++ [comp] }, g', none)

/-- The linear scan of `Session.removeComponent`: delete the first
component with the given id, or `none` when absent. -/
def removeFirst (id : String) : List Component → Option (List Component)
  | [] => none
  | c :: cs =>
    if c.id = id then some cs
    else match removeFirst id cs with
      | some cs' => some (c :: cs')
      | none => none

/-- The linear scan of the in-place mutations (move/resize/style/set
text): update the first component with the given id, or `none` when
absent. -/
def updateFirst (id : String) (f : Component → Component) :
    List Component → Option (List Component)
  | [] => none
  | c :: cs =>
    if c.id = id then some (f c :: cs)
    else match updateFirst id f cs with
      | some cs' => some (c :: cs')
      | none => none

/-- `Session.removeComponent`. -/
def removeComponent (s : Session) (params : RawParams) :
    Session × Option String :=
  match asID params with
  | .error m => (s, some m)
  | .ok id =>
    match removeFirst id s.canvas.components with
    | some cs => ({ s with canvas.components := cs }, none)
    | none => (s, some ("component not found: " ++ id))

/-- `Session.moveComponent`. -/
def moveComponent (s : Session) (params : RawParams) :
    Session × Option String :=
  match asMove params with
  | .error m => (s, some m)
  | .ok p =>
    match updateFirst p.id
        (fun c => { c with position := { x := p.x, y := p.y } })
        s.canvas.components with
    | some cs => ({ s with canvas.components := cs }, none)
    | none => (s, some ("component not found: " ++ p.id))

/-- `Session.resizeComponent`. -/
def resizeComponent (s : Session) (params : RawParams) :
    Session × Option String :=
  match asResize params with
  | .error m => (s, some m)
  | .ok p =>
    match updateFirst p.id
        (fun c => { c with size := { width := p.width, height := p.height } })
        s.canvas.components with
    | some cs => ({ s with canvas.components := cs }, none)
    | none => (s, some ("component not found: " ++ p.id))

/-- `Session.styleComponent`. -/
def styleComponent (s : Session) (params : RawParams) :
    Session × Option String :=
  match asStyle params with
  | .error m => (s, some m)
  | .ok p =>
    match updateFirst p.id (fun c => { c with style := p.style })
        s.canvas.components with
    | some cs => ({ s with canvas.components := cs }, none)
    | none => (s, some ("component not found: " ++ p.id))

/-- `Session.setText`. -/
def setText (s : Session) (params : RawParams) :
    Session × Option String :=
  match asSetText params with
  | .error m => (s, some m)
  | .ok p =>
    match updateFirst p.id (fun c => { c with text := p.text })
        s.canvas.components with
    | some cs => ({ s with canvas.components := cs }, none)
    | none => (s, some ("component not found: " ++ p.id))

/-- `Session.Execute`: save the undo snapshot, then dispatch on the
command's type string; unhandled type strings (including `export`,
`save`, `load`, `undo`, `redo`) hit the default branch.  Returns the
mutated session, the generator state, and the Go error
(`none` = `nil`). -/
def Execute (s : Session) (cmd : Command) (g : GenState) :
    Session × GenState × Option String :=
  let s := saveState s
  match cmd.ctype with
  | "add_component" => addComponent s cmd.params g
  | "remove_component" =>
      let (s', e) := removeComponent s cmd.params; (s', g, e)
  | "move_component" =>
      let (s', e) := moveComponent s cmd.params; (s', g, e)
  | "resize_component" =>
      let (s', e) := resizeComponent s cmd.params; (s', g, e)
  | "style_component" =>
      let (s', e) := styleComponent s cmd.params; (s', g, e)
  | "set_text" =>
      let (s', e) := setText s cmd.params; (s', g, e)
  | t => (s, g, some ("unknown command type: " ++ t))

/-- `Session.Undo`: pop the top undo snapshot into the canvas, pushing
the current canvas onto the redo stack; `false` when the undo stack is
empty. -/
def Undo (s : Session) : Session × Bool :=
  match s.undoStack.getLast? with
  | none => (s, false)
  | some top =>
      ({ s with canvas := top, undoStack := s.undoStack.dropLast,
                redoStack := s.redoStack ++ [s.canvas] }, true)

/-- `Session.Redo`: symmetric to `Undo`. -/
def Redo (s : Session) : Session × Bool :=
  match s.redoStack.getLast? with
  | none => (s, false)
  | some top =>
      ({ s with canvas := top, redoStack := s.redoStack.dropLast,
                undoStack := s.undoStack ++ [s.canvas] }, true)

/-- `Session.Clear`: snapshot, then empty the component list. -/
def Clear (s : Session) : Session :=
  let s := saveState s
  { s with canvas.components := [] }

/-- `Session.SetTheme`. -/
def SetTheme (s : Session) (theme : String) : Session :=
  { s with canvas.theme := theme }

/-- `Session.Resize`: change the canvas dimensions. -/
def Resize (s : Session) (width height : Int) : Session :=
  { s with canvas.width := width, canvas.height := height }

/-- `API.AddList`: build a list component and append it directly to the
canvas (no `Execute`, no snapshot).  The Go `items []string` argument is
an `Option (List String)` (`none` = nil slice).  Returns the new
component's id. -/
def AddList (s : Session) (name : String) (items : Option (List String))
    (x y width height : Int) (g : GenState) : Session × GenState × String :=
  let (comp, g') := NewComponent "list" name g
  let comp := { comp with position := { x := x, y := y },
                          size := { width := width, height := height },
                          items := items }
  ({ s with canvas.components := s.canvas.components ++ [comp] }, g', comp.id)

/-- `API.AddProgress`: build a progress component and append it directly
to the canvas.  The `float64` value is modelled as a rational. -/
def AddProgress (s : Session) (name : String) (value : Rat)
    (x y width : Int) (g : GenState) : Session × GenState × String :=
  let (comp, g') := NewComponent "progress" name g
  let comp := { comp with position := { x := x, y := y },
                          size := { width := width, height := 1 },
                          value := some value }
  ({ s with canvas.components := s.canvas.components ++ [comp] }, g', comp.id)

/-! ### Code generator (`internal/codegen`)

Braces inside generated-code string literals are written `\x7b` / `\x7d`
(the characters `{` and `}`). -/

/-- `codegen.Generator`. -/
structure Generator where
  canvas : Canvas
  deriving DecidableEq, Repr

/-- `codegen.NewGenerator`. -/
def NewGenerator (canvas : Canvas) : Generator :=
  { canvas := canvas }

/-- One escaped character of Go `%q` (`strconv.Quote`) output, for the
printable-ASCII and common-escape range that canvas text can hold. -/
def goQuoteChar (c : Char) : String :=
  if c = '"' then "\\\""
  else if c = '\\' then "\\\\"
  else if c = '\n' then "\\n"
  else if c = '\t' then "\\t"
  else if c = '\r' then "\\r"
  else String.singleton c

/-- Go `fmt`'s `%q` verb on a string. -/
def goQuote (s : String) : String :=
  "\"" ++ String.join (s.data.map goQuoteChar) ++ "\""

/-- The package/import preamble literal at the top of
`Generator.Generate`. -/
def genImports : String :=
  "package main\n\nimport (\n\t\"fmt\"\n\t\"os\"\n\n\ttea \"github.com/charmbracelet/bubbletea\"\n\t\"github.com/charmbracelet/lipgloss\"\n)\n\n"

/-- `Generator.generateStyles`: a fixed palette/style block, independent
of the canvas. -/
def generateStyles : String :=
  "// Styles - Ultraviolet theme\nvar (\n\tprimaryColor   = lipgloss.Color(\"#9D4EDD\")\n\tsecondaryColor = lipgloss.Color(\"#7B2CBF\")\n\taccentColor    = lipgloss.Color(\"#E040FB\")\n\tbgColor        = lipgloss.Color(\"#0D0221\")\n\tsurfaceColor   = lipgloss.Color(\"#1A1333\")\n\ttextColor      = lipgloss.Color(\"#FFFFFF\")\n\tmutedColor     = lipgloss.Color(\"#6B6B8D\")\n\tborderColor    = lipgloss.Color(\"#3D2C5E\")\n\n\ttitleStyle = lipgloss.NewStyle().\n\t\tForeground(primaryColor).\n\t\tBold(true).\n\t\tMarginBottom(1)\n\n\tboxStyle = lipgloss.NewStyle().\n\t\tBorderStyle(lipgloss.RoundedBorder()).\n\t\tBorderForeground(borderColor).\n\t\tPadding(1, 2)\n\n\tbuttonStyle = lipgloss.NewStyle().\n\t\tBackground(surfaceColor).\n\t\tForeground(textColor).\n\t\tPadding(0, 3).\n\t\tBorderStyle(lipgloss.RoundedBorder()).\n\t\tBorderForeground(borderColor)\n\n\tbuttonActiveStyle = lipgloss.NewStyle().\n\t\tBackground(primaryColor).\n\t\tForeground(textColor).\n\t\tPadding(0, 3).\n\t\tBorderStyle(lipgloss.RoundedBorder()).\n\t\tBorderForeground(accentColor).\n\t\tBold(true)\n)\n\n"

/-- The per-component state field(s) emitted by the loop in
`Generator.generateModel` for the component at index `i`. -/
def modelFieldFor (i : Nat) (comp : Component) : String :=
  match comp.ctype with
  | "input" => "\tinput" ++ toString i ++ " string\n"
  | "list" => "\tlist" ++ toString i ++ " []string\n"
      ++ "\tlist" ++ toString i ++ "Selected int\n"
  | "progress" => "\tprogress" ++ toString i ++ " float64\n"
  | _ => ""

/-- The `for i, comp := range` loop of `Generator.generateModel`. -/
def emitFields (i : Nat) : List Component → String
  | [] => ""
  | c :: cs => modelFieldFor i c ++ emitFields (i + 1) cs

/-- `Generator.generateModel`. -/
def generateModel (g : Generator) : String :=
  "// Model represents the application state\n"
  ++ "type model struct \x7b\n"
  ++ "\twidth  int\n"
  ++ "\theight int\n"
  ++ emitFields 0 g.canvas.components
  ++ "\tquitting bool\n"
  ++ "\x7d\n\n"

/-- `Generator.generateInit`. -/
def generateInit : String :=
  "func (m model) Init() tea.Cmd \x7b\n" ++ "\treturn nil\n" ++ "\x7d\n\n"

/-- `Generator.generateUpdate`: a fixed minimal event loop. -/
def generateUpdate : String :=
  "func (m model) Update(msg tea.Msg) (tea.Model, tea.Cmd) \x7b\n\tswitch msg := msg.(type) \x7b\n\tcase tea.WindowSizeMsg:\n\t\tm.width = msg.Width\n\t\tm.height = msg.Height\n\tcase tea.KeyMsg:\n\t\tswitch msg.String() \x7b\n\t\tcase \"q\", \"ctrl+c\":\n\t\t\tm.quitting = true\n\t\t\treturn m, tea.Quit\n\t\t\x7d\n\t\x7d\n\treturn m, nil\n\x7d\n\n"

/-- `Generator.generateComponentView`: the per-component rendering
statement block, dispatched by type; unknown types emit the placeholder
comment plus a literal bracketed tag. -/
def generateComponentView (index : Nat) (comp : Component) : String :=
  match comp.ctype with
  | "box" =>
      "\t// Box: " ++ comp.name ++ "\n"
      ++ "\tbox" ++ toString index ++ " := boxStyle.Width("
      ++ toString comp.size.width ++ ").Height(" ++ toString comp.size.height
      ++ ").Render(" ++ goQuote comp.text ++ ")\n"
      ++ "\tcontent += box" ++ toString index ++ " + \"\\n\"\n\n"
  | "text" =>
      "\t// Text: " ++ comp.name ++ "\n"
      ++ "\ttext" ++ toString index
      ++ " := lipgloss.NewStyle().Foreground(textColor).Render("
      ++ goQuote comp.text ++ ")\n"
      ++ "\tcontent += text" ++ toString index ++ " + \"\\n\"\n\n"
  | "button" =>
      "\t// Button: " ++ comp.name ++ "\n"
      ++ "\tbutton" ++ toString index ++ " := buttonStyle.Render("
      ++ goQuote comp.text ++ ")\n"
      ++ "\tcontent += button" ++ toString index ++ " + \"\\n\"\n\n"
  | _ =>
      "\t// " ++ comp.ctype ++ ": " ++ comp.name ++ " (TODO: implement)\n"
      ++ "\tcontent += \"[" ++ comp.ctype ++ ": " ++ comp.name ++ "]\\n\"\n\n"

/-- The `for i, comp := range` loop of `Generator.generateView`. -/
def emitViews (i : Nat) : List Component → String
  | [] => ""
  | c :: cs => generateComponentView i c ++ emitViews (i + 1) cs

/-- `Generator.generateView`. -/
def generateView (g : Generator) : String :=
  "func (m model) View() string \x7b\n"
  ++ "\tif m.quitting \x7b\n"
  ++ "\t\treturn \"\"\n"
  ++ "\t\x7d\n\n"
  ++ "\tvar content string\n\n"
  ++ emitViews 0 g.canvas.components
  ++ "\treturn content\n"
  ++ "\x7d\n\n"

/-- `Generator.generateMain`. -/
def generateMain : String :=
  "func main() \x7b\n\tp := tea.NewProgram(model\x7b\x7d, tea.WithAltScreen())\n\tif _, err := p.Run(); err != nil \x7b\n\t\tfmt.Printf(\"Error running program: %v\\n\", err)\n\t\tos.Exit(1)\n\t\x7d\n\x7d\n"

/-- `Generator.Generate`: preamble, styles, model, init, update, view,
main, concatenated in fixed sequence. -/
def Generate (g : Generator) : String :=
  genImports ++ generateStyles ++ generateModel g ++ generateInit
    ++ generateUpdate ++ generateView g ++ generateMain

/-- `Generator.GenerateJSON` as written in
`internal/codegen/generator_main.go`: it returns the literal `"{}"`
("Simplified for now"), ignoring the canvas. -/
def GenerateJSON (_g : Generator) : String := "\x7b\x7d"

/-- `Session.Export`: run the code generator on the current canvas. -/
def Export (s : Session) : String :=
  Generate (NewGenerator s.canvas)

/-! ### Canvas JSON serialization (`Session.ExportJSON` / `Session.LoadFromJSON`)

`ExportJSON` is `json.MarshalIndent` of the canvas and `LoadFromJSON` is
`json.Unmarshal` into a fresh canvas.  The JSON text is abstracted by
the JSON document it denotes (Go's marshaller and `Unmarshal` are a
faithful printer/parser pair on documents); the repository-specific
content — which keys each struct writes, which are omitted by
`omitempty`, and what `Unmarshal` does with absent keys — is modelled
exactly, following the struct tags in `pkg/schema`. -/

/-- A JSON document. -/
inductive Json where
  | null
  | bool (b : Bool)
  | num (q : Rat)
  | str (s : String)
  | arr (elems : List Json)
  | obj (fields : List (String × Json))

/-- One field of a struct with an `omitempty` tag: present exactly when
the Go value is non-empty. -/
def optF (k : String) (p : Prop) [Decidable p] (v : Json) : List (String × Json) :=
  if p then [(k, v)] else []

/-- Marshal `schema.Position`. -/
def encPosition (p : Position) : Json :=
  .obj [("x", .num (p.x : Rat)), ("y", .num (p.y : Rat))]

/-- Marshal `schema.Size`. -/
def encSize (s : Size) : Json :=
  .obj [("width", .num (s.width : Rat)), ("height", .num (s.height : Rat))]

/-- Marshal `schema.Border` (no `omitempty` on any field). -/
def encBorder (b : Border) : Json :=
  .obj [("style", .str b.style), ("color", .str b.color),
        ("left", .bool b.left), ("right", .bool b.right),
        ("top", .bool b.top), ("bottom", .bool b.bottom)]

/-- Marshal `schema.Padding`. -/
def encPadding (p : Padding) : Json :=
  .obj [("top", .num (p.top : Rat)), ("right", .num (p.right : Rat)),
        ("bottom", .num (p.bottom : Rat)), ("left", .num (p.left : Rat))]

/-- Marshal `schema.Margin`. -/
def encMargin (m : Margin) : Json :=
  .obj [("top", .num (m.top : Rat)), ("right", .num (m.right : Rat)),
        ("bottom", .num (m.bottom : Rat)), ("left", .num (m.left : Rat))]

/-- The zero `schema.Border`, used only as a placeholder under `optF`. -/
def zeroBorder : Border :=
  { style := "", color := "", left := false, right := false,
    top := false, bottom := false }

/-- Marshal `schema.Style`: strings, bools, the border pointer and
`align` carry `omitempty`; `padding` and `margin` do not. -/
def encStyle (st : Style) : Json :=
  .obj (optF "foreground" (st.foreground ≠ "") (.str st.foreground)
    ++ optF "background" (st.background ≠ "") (.str st.background)
    ++ optF "bold" (st.bold = true) (.bool st.bold)
    ++ optF "italic" (st.italic = true) (.bool st.italic)
    ++ optF "underline" (st.underline = true) (.bool st.underline)
    ++ optF "border" st.border.isSome (encBorder (st.border.getD zeroBorder))
    ++ [("padding", encPadding st.padding), ("margin", encMargin st.margin)]
    ++ optF "align" (st.align ≠ "") (.str st.align))

/-- Marshal `schema.Component`.  `items`, like every slice under
`omitempty`, is omitted when its length is zero — whether nil or empty;
`value` (an `any`) is omitted exactly when nil. -/
def encComponent (c : Component) : Json :=
  .obj ([("id", .str c.id), ("type", .str c.ctype), ("name", .str c.name),
        ("position", encPosition c.position), ("size", encSize c.size),
        ("style", encStyle c.style)]
    ++ optF "text" (c.text ≠ "") (.str c.text)
    ++ optF "placeholder" (c.placeholder ≠ "") (.str c.placeholder)
    ++ optF "items" (c.items.getD [] ≠ [])
        (.arr ((c.items.getD []).map .str))
    ++ optF "value" c.value.isSome (.num (c.value.getD 0))
    ++ optF "focused" (c.focused = true) (.bool c.focused)
    ++ optF "selected" (c.selected = true) (.bool c.selected)
    ++ optF "disabled" (c.disabled = true) (.bool c.disabled))

/-- Marshal `schema.Canvas` (no `omitempty`; `components` is non-nil on
every reachable path, so it always marshals as an array). -/
def encCanvas (c : Canvas) : Json :=
  .obj [("name", .str c.name), ("width", .num (c.width : Rat)),
        ("height", .num (c.height : Rat)),
        ("components", .arr (c.components.map encComponent)),
        ("theme", .str c.theme)]

/-- `Session.ExportJSON`: marshal the current canvas.  (`MarshalIndent`
cannot fail on `schema.Canvas`.) -/
def ExportJSON (s : Session) : Json :=
  encCanvas s.canvas

/-- `json.Unmarshal` into a `string` field: an absent key leaves the
zero value. -/
def getStr (fields : List (String × Json)) (k : String) : Except String String :=
  match fields.lookup k with
  | none => .ok ""
  | some (.str s) => .ok s
  | some _ => .error ("cannot unmarshal field " ++ k)

/-- `json.Unmarshal` into an `int` field: a non-integral JSON number is
a type error. -/
def getInt (fields : List (String × Json)) (k : String) : Except String Int :=
  match fields.lookup k with
  | none => .ok 0
  | some (.num q) => if q.den = 1 then .ok q.num else .error ("cannot unmarshal field " ++ k)
  | some _ => .error ("cannot unmarshal field " ++ k)

/-- `json.Unmarshal` into a `bool` field. -/
def getBool (fields : List (String × Json)) (k : String) : Except String Bool :=
  match fields.lookup k with
  | none => .ok false
  | some (.bool b) => .ok b
  | some _ => .error ("cannot unmarshal field " ++ k)

/-- `json.Unmarshal` into a struct-valued field: an absent key leaves
the zero value `z`; a present one runs the struct's decoder. -/
def getObj (fields : List (String × Json)) (k : String)
    (dec : Json → Except String α) (z : α) : Except String α :=
  match fields.lookup k with
  | none => .ok z
  | some j => dec j

/-- Unmarshal `schema.Position` (JSON `null` leaves the zero value). -/
def decodePosition : Json → Except String Position
  | .null => .ok { x := 0, y := 0 }
  | .obj f => do
    let x ← getInt f "x"
    let y ← getInt f "y"
    .ok { x := x, y := y }
  | _ => .error "cannot unmarshal position"

/-- Unmarshal `schema.Size`. -/
def decodeSize : Json → Except String Size
  | .null => .ok { width := 0, height := 0 }
  | .obj f => do
    let w ← getInt f "width"
    let h ← getInt f "height"
    .ok { width := w, height := h }
  | _ => .error "cannot unmarshal size"

/-- Unmarshal `schema.Border`. -/
def decodeBorder : Json → Except String Border
  | .null => .ok zeroBorder
  | .obj f => do
    let style ← getStr f "style"
    let color ← getStr f "color"
    let left ← getBool f "left"
    let right ← getBool f "right"
    let top ← getBool f "top"
    let bottom ← getBool f "bottom"
    .ok { style := style, color := color, left := left, right := right,
          top := top, bottom := bottom }
  | _ => .error "cannot unmarshal border"

/-- Unmarshal `schema.Padding`. -/
def decodePadding : Json → Except String Padding
  | .null => .ok { top := 0, right := 0, bottom := 0, left := 0 }
  | .obj f => do
    let top ← getInt f "top"
    let right ← getInt f "right"
    let bottom ← getInt f "bottom"
    let left ← getInt f "left"
    .ok { top := top, right := right, bottom := bottom, left := left }
  | _ => .error "cannot unmarshal padding"

/-- Unmarshal `schema.Margin`. -/
def decodeMargin : Json → Except String Margin
  | .null => .ok { top := 0, right := 0, bottom := 0, left := 0 }
  | .obj f => do
    let top ← getInt f "top"
    let right ← getInt f "right"
    let bottom ← getInt f "bottom"
    let left ← getInt f "left"
    .ok { top := top, right := right, bottom := bottom, left := left }
  | _ => .error "cannot unmarshal margin"

/-- Unmarshal the `Border *Border` pointer field: absent or `null`
leaves nil. -/
def getBorder (fields : List (String × Json)) : Except String (Option Border) :=
  match fields.lookup "border" with
  | none => .ok none
  | some .null => .ok none
  | some j => do
    let b ← decodeBorder j
    .ok (some b)

/-- Unmarshal `schema.Style`. -/
def decodeStyle : Json → Except String Style
  | .null => .ok zeroStyle
  | .obj f => do
    let fg ← getStr f "foreground"
    let bg ← getStr f "background"
    let bold ← getBool f "bold"
    let italic ← getBool f "italic"
    let underline ← getBool f "underline"
    let border ← getBorder f
    let padding ← getObj f "padding" decodePadding
      { top := 0, right := 0, bottom := 0, left := 0 }
    let margin ← getObj f "margin" decodeMargin
      { top := 0, right := 0, bottom := 0, left := 0 }
    let align ← getStr f "align"
    .ok { foreground := fg, background := bg, bold := bold, italic := italic,
          underline := underline, border := border, padding := padding,
          margin := margin, align := align }
  | _ => .error "cannot unmarshal style"

/-- Unmarshal one element of a `[]string`. -/
def decodeStrElem : Json → Except String String
  | .str s => .ok s
  | _ => .error "cannot unmarshal string element"

/-- Unmarshal a JSON array into a `[]string`, element by element. -/
def decodeStrList : List Json → Except String (List String)
  | [] => .ok []
  | j :: js => do
    let s ← decodeStrElem j
    let rest ← decodeStrList js
    .ok (s :: rest)

/-- Unmarshal the `Items []string` field: absent or `null` yields the
nil slice; a JSON array (even an empty one) yields a non-nil slice. -/
def getItems (fields : List (String × Json)) :
    Except String (Option (List String)) :=
  match fields.lookup "items" with
  | none => .ok none
  | some .null => .ok none
  | some (.arr elems) => do
    let l ← decodeStrList elems
    .ok (some l)
  | some _ => .error "cannot unmarshal field items"

/-- Unmarshal the `Value any` field: absent or `null` is nil; a JSON
number is the `float64` it denotes.  (No other value shape ever
inhabits `Value` in the verified surface.) -/
def getValue (fields : List (String × Json)) : Except String (Option Rat) :=
  match fields.lookup "value" with
  | none => .ok none
  | some .null => .ok none
  | some (.num q) => .ok (some q)
  | some _ => .error "cannot unmarshal field value"

/-- Unmarshal `schema.Component`. -/
def decodeComponent : Json → Except String Component
  | .null =>
    .ok { id := "", ctype := "", name := "",
          position := { x := 0, y := 0 }, size := { width := 0, height := 0 },
          style := zeroStyle, text := "", placeholder := "", items := none,
          value := none, focused := false, selected := false, disabled := false }
  | .obj f => do
    let id ← getStr f "id"
    let ctype ← getStr f "type"
    let name ← getStr f "name"
    let position ← getObj f "position" decodePosition { x := 0, y := 0 }
    let size ← getObj f "size" decodeSize { width := 0, height := 0 }
    let style ← getObj f "style" decodeStyle zeroStyle
    let text ← getStr f "text"
    let placeholder ← getStr f "placeholder"
    let items ← getItems f
    let value ← getValue f
    let focused ← getBool f "focused"
    let selected ← getBool f "selected"
    let disabled ← getBool f "disabled"
    .ok { id := id, ctype := ctype, name := name, position := position,
          size := size, style := style, text := text,
          placeholder := placeholder, items := items, value := value,
          focused := focused, selected := selected, disabled := disabled }
  | _ => .error "cannot unmarshal component"

/-- Unmarshal a JSON array into a `[]Component`, element by element. -/
def decodeComponentList : List Json → Except String (List Component)
  | [] => .ok []
  | j :: js => do
    let c ← decodeComponent j
    let rest ← decodeComponentList js
    .ok (c :: rest)

/-- Unmarshal the `Components []Component` field. -/
def getComponents (fields : List (String × Json)) :
    Except String (List Component) :=
  match fields.lookup "components" with
  | none => .ok []
  | some .null => .ok []
  | some (.arr elems) => decodeComponentList elems
  | some _ => .error "cannot unmarshal field components"

/-- Unmarshal `schema.Canvas`. -/
def decodeCanvas : Json → Except String Canvas
  | .null =>
    .ok { name := "", width := 0, height := 0, components := [], theme := "" }
  | .obj f => do
    let name ← getStr f "name"
    let width ← getInt f "width"
    let height ← getInt f "height"
    let components ← getComponents f
    let theme ← getStr f "theme"
    .ok { name := name, width := width, height := height,
          components := components, theme := theme }
  | _ => .error "cannot unmarshal canvas"

/-- `Session.LoadFromJSON`: unmarshal a whole canvas and replace the
session's canvas atomically; on a parse error the session is
unchanged. -/
def LoadFromJSON (s : Session) (data : Json) : Except String Session :=
  match decodeCanvas data with
  | .ok canvas => .ok { s with canvas := canvas }
  | .error e => .error e

/-! ### Derived runs and concrete inputs used in the theorems below -/

/-- Execute a sequence of `add_component` commands, threading the
generator state — the run underlying the id-uniqueness property. -/
def runAdds (s : Session) (ps : List AddComponentParams) (g : GenState) :
    Session × GenState :=
  match ps with
  | [] => (s, g)
  | p :: rest =>
    let r := Execute s { ctype := "add_component", params := .addP p } g
    runAdds r.1 rest r.2.1

/-- The id that the `k`-th `generateID` call after state `g` returns
(counting from `k = 0`). -/
def idAt (g : GenState) (k : Nat) : String :=
  idString (g.time (g.tick + k)) (g.rnd (g.tick + k)) ((g.counter + k + 1) % 2 ^ 64)

/-- A concrete generator state (zero clock and zero random bytes). -/
def wG : GenState :=
  { counter := 0, tick := 0, time := fun _ => 0, rnd := fun _ => (0, 0, 0, 0) }

/-- The session of the spec's concrete scenario: named "Demo", 80×24. -/
def wS : Session := NewSession "Demo" 80 24

/-- Parameters of a concrete valid `add_component` command. -/
def wAddP : AddComponentParams :=
  { ctype := "box", name := "header", x := 0, y := 0, width := 80, height := 3,
    text := "Hi", style := none }

/-- The concrete `add_component` command built from `wAddP`. -/
def wAddCmd : Command :=
  { ctype := "add_component", params := .addP wAddP }

/-- A concrete component of type `input` (state fields but no indexed
view block in the generated code). -/
def cInput : Component :=
  { id := "a", ctype := "input", name := "nm",
    position := { x := 0, y := 0 }, size := { width := 20, height := 3 },
    style := zeroStyle, text := "", placeholder := "", items := none,
    value := none, focused := false, selected := false, disabled := false }

/-- A concrete component of type `box`. -/
def cBox : Component :=
  { cInput with id := "b", ctype := "box", name := "nm2", text := "T" }

/-- A canvas holding `[cInput, cBox]`. -/
def cx1 : Canvas :=
  { name := "c", width := 80, height := 24, components := [cInput, cBox],
    theme := "ultraviolet" }

/-- The same canvas with the two components swapped. -/
def cx2 : Canvas := { cx1 with components := [cBox, cInput] }

/-- The session obtained from a fresh session by `AddList` with an
empty (but non-nil) items slice — the round-trip counterexample. -/
def sEmptyItems : Session :=
  (AddList (NewSession "Demo" 80 24) "menu" (some []) 0 0 5 5 wG).1

/-- The six command type strings `Session.Execute` actually dispatches
on. -/
def handledKinds : List String :=
  ["add_component", "remove_component", "move_component",
   "resize_component", "style_component", "set_text"]

/-- The eleven command type strings declared as `CommandType` constants
in the command protocol. -/
def declaredKinds : List String :=
  ["add_component", "remove_component", "move_component",
   "resize_component", "style_component", "set_text",
   "export", "save", "load", "undo", "redo"]

/-- The concrete session after one successful add: its undo stack holds
exactly the initial empty canvas. -/
def wS2 : Session := (Execute wS wAddCmd wG).1

/-- Everything `Generate` emits before the per-component model fields:
the import preamble, the fixed style block, and the model-struct
header. -/
def genHead : String :=
  genImports ++ generateStyles
    ++ ("// Model represents the application state\n"
      ++ "type model struct \x7b\n"
      ++ "\twidth  int\n"
      ++ "\theight int\n")

/-- Everything `Generate` emits between the per-component model fields
and the per-component view blocks: the model-struct footer, the fixed
init and update blocks, and the view header. -/
def genMid : String :=
  ("\tquitting bool\n" ++ "\x7d\n\n") ++ generateInit ++ generateUpdate
    ++ ("func (m model) View() string \x7b\n"
      ++ "\tif m.quitting \x7b\n"
      ++ "\t\treturn \"\"\n"
      ++ "\t\x7d\n\n"
      ++ "\tvar content string\n\n")

/-- Everything `Generate` emits after the per-component view blocks:
the view footer and the fixed main block. -/
def genTail : String :=
  ("\treturn content\n" ++ "\x7d\n\n") ++ generateMain

/-! ### Basic lemmas about the linear scans -/

lemma updateFirst_eq_none (id : String) (f : Component → Component)
    (l : List Component) (h : ∀ c ∈ l, c.id ≠ id) :
    updateFirst id f l = none := by
  induction l with
  | nil => rfl
  | cons c cs ih =>
    have hc : c.id ≠ id := h c (List.mem_cons_self c cs)
    simp only [updateFirst, if_neg hc]
    rw [ih fun x hx => h x (List.mem_cons_of_mem c hx)]

lemma removeFirst_eq_none (id : String) (l : List Component)
    (h : ∀ c ∈ l, c.id ≠ id) :
    removeFirst id l = none := by
  induction l with
  | nil => rfl
  | cons c cs ih =>
    have hc : c.id ≠ id := h c (List.mem_cons_self c cs)
    simp only [removeFirst, if_neg hc]
    rw [ih fun x hx => h x (List.mem_cons_of_mem c hx)]

/-! ### Frame lemmas: what each dispatch target leaves untouched -/

lemma addComponent_frame (s : Session) (p : RawParams) (g : GenState) :
    (addComponent s p g).1.undoStack = s.undoStack
      ∧ (addComponent s p g).1.redoStack = s.redoStack
      ∧ (addComponent s p g).1.history = s.history := by
  unfold addComponent
  cases asAdd p <;> simp

lemma removeComponent_frame (s : Session) (p : RawParams) :
    (removeComponent s p).1.undoStack = s.undoStack
      ∧ (removeComponent s p).1.redoStack = s.redoStack
      ∧ (removeComponent s p).1.history = s.history := by
  unfold removeComponent
  cases asID p with
  | error m => simp
  | ok id =>
    cases h : removeFirst id s.canvas.components <;> simp [h]

lemma moveComponent_frame (s : Session) (p : RawParams) :
    (moveComponent s p).1.undoStack = s.undoStack
      ∧ (moveComponent s p).1.redoStack = s.redoStack
      ∧ (moveComponent s p).1.history = s.history := by
  unfold moveComponent
  cases asMove p with
  | error m => simp
  | ok q =>
    cases h : updateFirst q.id
      (fun c => { c with position := { x := q.x, y := q.y } })
      s.canvas.components <;> simp [h]

lemma resizeComponent_frame (s : Session) (p : RawParams) :
    (resizeComponent s p).1.undoStack = s.undoStack
      ∧ (resizeComponent s p).1.redoStack = s.redoStack
      ∧ (resizeComponent s p).1.history = s.history := by
  unfold resizeComponent
  cases asResize p with
  | error m => simp
  | ok q =>
    cases h : updateFirst q.id
      (fun c => { c with size := { width := q.width, height := q.height } })
      s.canvas.components <;> simp [h]

lemma styleComponent_frame (s : Session) (p : RawParams) :
    (styleComponent s p).1.undoStack = s.undoStack
      ∧ (styleComponent s p).1.redoStack = s.redoStack
      ∧ (styleComponent s p).1.history = s.history := by
  unfold styleComponent
  cases asStyle p with
  | error m => simp
  | ok q =>
    cases h : updateFirst q.id (fun c => { c with style := q.style })
      s.canvas.components <;> simp [h]

lemma setText_frame (s : Session) (p : RawParams) :
    (setText s p).1.undoStack = s.undoStack
      ∧ (setText s p).1.redoStack = s.redoStack
      ∧ (setText s p).1.history = s.history := by
  unfold setText
  cases asSetText p with
  | error m => simp
  | ok q =>
    cases h : updateFirst q.id (fun c => { c with text := q.text })
      s.canvas.components <;> simp [h]

/-- Every `Execute` ends with the pre-dispatch snapshot on top of the
undo stack, an empty redo stack, and an untouched history, whatever the
command and whatever the dispatch outcome. -/
lemma execute_frame (s : Session) (cmd : Command) (g : GenState) :
    (Execute s cmd g).1.undoStack = s.undoStack ++ [s.canvas]
      ∧ (Execute s cmd g).1.redoStack = []
      ∧ (Execute s cmd g).1.history = s.history := by
  unfold Execute
  split
  · exact addComponent_frame (saveState s) cmd.params g
  · exact removeComponent_frame (saveState s) cmd.params
  · exact moveComponent_frame (saveState s) cmd.params
  · exact resizeComponent_frame (saveState s) cmd.params
  · exact styleComponent_frame (saveState s) cmd.params
  · exact setText_frame (saveState s) cmd.params
  · exact ⟨rfl, rfl, rfl⟩

/-! ### Undo/Redo on known stacks, and `Execute` dispatch equations -/

lemma Undo_push (s : Session) (us : List Canvas) (top : Canvas)
    (h : s.undoStack = us ++ [top]) :
    Undo s = ({ s with
                canvas := top, undoStack := us,
                redoStack := s.redoStack ++ [s.canvas] }, true) := by
  unfold Undo
  rw [h]
  simp [List.getLast?_concat, List.dropLast_concat]

lemma Undo_empty (s : Session) (h : s.undoStack = []) : Undo s = (s, false) := by
  unfold Undo
  rw [h]
  rfl

lemma Redo_empty (s : Session) (h : s.redoStack = []) : Redo s = (s, false) := by
  unfold Redo
  rw [h]
  rfl

lemma Execute_add (s : Session) (ps : RawParams) (g : GenState) :
    Execute s { ctype := "add_component", params := ps } g
      = addComponent (saveState s) ps g := rfl

lemma Execute_remove (s : Session) (ps : RawParams) (g : GenState) :
    Execute s { ctype := "remove_component", params := ps } g
      = ((removeComponent (saveState s) ps).1, g,
         (removeComponent (saveState s) ps).2) := rfl

lemma Execute_move (s : Session) (ps : RawParams) (g : GenState) :
    Execute s { ctype := "move_component", params := ps } g
      = ((moveComponent (saveState s) ps).1, g,
         (moveComponent (saveState s) ps).2) := rfl

lemma Execute_resize (s : Session) (ps : RawParams) (g : GenState) :
    Execute s { ctype := "resize_component", params := ps } g
      = ((resizeComponent (saveState s) ps).1, g,
         (resizeComponent (saveState s) ps).2) := rfl

lemma Execute_style (s : Session) (ps : RawParams) (g : GenState) :
    Execute s { ctype := "style_component", params := ps } g
      = ((styleComponent (saveState s) ps).1, g,
         (styleComponent (saveState s) ps).2) := rfl

lemma Execute_setText (s : Session) (ps : RawParams) (g : GenState) :
    Execute s { ctype := "set_text", params := ps } g
      = ((setText (saveState s) ps).1, g,
         (setText (saveState s) ps).2) := rfl

/-! ### Claim theorems -/

/-- C1: for every valid AddComponent command, `Execute(add)` succeeds
and a subsequent `Undo()` returns `true` and yields a canvas whose
component list equals the one held immediately before the `Execute`. -/
theorem add_undo_inverse (s : Session) (cmd : Command) (g : GenState)
    (p : AddComponentParams) (hty : cmd.ctype = "add_component")
    (hp : cmd.params = .addP p) :
    (Execute s cmd g).2.2 = none
      ∧ (Undo (Execute s cmd g).1).2 = true
      ∧ (Undo (Execute s cmd g).1).1.canvas.components
          = s.canvas.components := by
  obtain ⟨ct, ps⟩ := cmd
  dsimp only at hty hp
  subst hty
  subst hp
  have hframe := execute_frame s { ctype := "add_component", params := .addP p } g
  have hundo := Undo_push _ s.undoStack s.canvas hframe.1
  refine ⟨?_, ?_, ?_⟩
  · rw [Execute_add]
    simp [addComponent, asAdd]
  · rw [hundo]
  · rw [hundo]

/-- C1 witness: the inverse law at the concrete scenario session. -/
theorem add_undo_inverse_witness :
    (Execute wS wAddCmd wG).2.2 = none
      ∧ (Undo (Execute wS wAddCmd wG).1).2 = true
      ∧ (Undo (Execute wS wAddCmd wG).1).1.canvas.components
          = wS.canvas.components :=
  add_undo_inverse wS wAddCmd wG wAddP rfl rfl

/-- C2: every `Execute` — successful or not — pushes exactly one
snapshot of the pre-`Execute` canvas onto the undo stack and empties the
redo stack, so a subsequent `Redo()` returns `false`; a failed remove of
a nonexistent id in particular leaves the canvas unchanged, consumes an
undo slot, and an immediate `Undo()` returns `true` restoring a canvas
identical to the current one. -/
theorem pre_dispatch_snapshot (s : Session) (g : GenState) :
    (∀ cmd : Command,
      (Execute s cmd g).1.undoStack = s.undoStack ++ [s.canvas]
        ∧ (Execute s cmd g).1.redoStack = []
        ∧ (Redo (Execute s cmd g).1).2 = false
        ∧ (Redo (Execute s cmd g).1).1 = (Execute s cmd g).1)
    ∧ (∀ id : String, (∀ c ∈ s.canvas.components, c.id ≠ id) →
        (Execute s { ctype := "remove_component", params := .removeP id } g).2.2
            = some ("component not found: " ++ id)
        ∧ (Execute s { ctype := "remove_component", params := .removeP id } g).1.canvas
            = s.canvas
        ∧ (Undo (Execute s { ctype := "remove_component", params := .removeP id } g).1).2
            = true
        ∧ (Undo (Execute s { ctype := "remove_component", params := .removeP id } g).1).1.canvas
            = (Execute s { ctype := "remove_component", params := .removeP id } g).1.canvas) := by
  constructor
  · intro cmd
    have hframe := execute_frame s cmd g
    have hredo := Redo_empty (Execute s cmd g).1 hframe.2.1
    exact ⟨hframe.1, hframe.2.1, by rw [hredo], by rw [hredo]⟩
  · intro id habs
    have hrm : removeComponent (saveState s) (.removeP id)
        = (saveState s, some ("component not found: " ++ id)) := by
      unfold removeComponent
      simp only [asID, saveState]
      rw [removeFirst_eq_none id s.canvas.components habs]
    have hframe := execute_frame s
      { ctype := "remove_component", params := .removeP id } g
    have hundo := Undo_push _ s.undoStack s.canvas hframe.1
    refine ⟨?_, ?_, by rw [hundo], ?_⟩
    · rw [Execute_remove, hrm]
    · rw [Execute_remove, hrm]
      rfl
    · rw [hundo, Execute_remove, hrm]
      rfl

/-- C2 witness: the snapshot discipline at a concrete failed remove. -/
theorem pre_dispatch_snapshot_witness :
    ((Execute wS { ctype := "remove_component", params := .removeP "zz" } wG).1.undoStack
        = wS.undoStack ++ [wS.canvas]
      ∧ (Execute wS { ctype := "remove_component", params := .removeP "zz" } wG).1.redoStack = []
      ∧ (Redo (Execute wS { ctype := "remove_component", params := .removeP "zz" } wG).1).2 = false
      ∧ (Redo (Execute wS { ctype := "remove_component", params := .removeP "zz" } wG).1).1
          = (Execute wS { ctype := "remove_component", params := .removeP "zz" } wG).1)
    ∧ ((Execute wS { ctype := "remove_component", params := .removeP "zz" } wG).2.2
        = some ("component not found: " ++ "zz")
      ∧ (Execute wS { ctype := "remove_component", params := .removeP "zz" } wG).1.canvas
          = wS.canvas
      ∧ (Undo (Execute wS { ctype := "remove_component", params := .removeP "zz" } wG).1).2 = true
      ∧ (Undo (Execute wS { ctype := "remove_component", params := .removeP "zz" } wG).1).1.canvas
          = (Execute wS { ctype := "remove_component", params := .removeP "zz" } wG).1.canvas) := by
  have h := pre_dispatch_snapshot wS wG
  exact ⟨h.1 _, h.2 "zz" (by decide)⟩

/-- C3: each of Move/Resize/Style/SetText/Remove on an id absent from
the canvas returns exactly the error `"component not found: {id}"` and
leaves the component list unchanged in content and order. -/
theorem not_found_total (s : Session) (g : GenState) (id : String)
    (habs : ∀ c ∈ s.canvas.components, c.id ≠ id) :
    (∀ x y : Int,
      (Execute s { ctype := "move_component", params := .moveP { id := id, x := x, y := y } } g).2.2
          = some ("component not found: " ++ id)
      ∧ (Execute s { ctype := "move_component", params := .moveP { id := id, x := x, y := y } } g).1.canvas.components
          = s.canvas.components)
    ∧ (∀ w h : Int,
      (Execute s { ctype := "resize_component", params := .resizeP { id := id, width := w, height := h } } g).2.2
          = some ("component not found: " ++ id)
      ∧ (Execute s { ctype := "resize_component", params := .resizeP { id := id, width := w, height := h } } g).1.canvas.components
          = s.canvas.components)
    ∧ (∀ st : Style,
      (Execute s { ctype := "style_component", params := .styleP { id := id, style := st } } g).2.2
          = some ("component not found: " ++ id)
      ∧ (Execute s { ctype := "style_component", params := .styleP { id := id, style := st } } g).1.canvas.components
          = s.canvas.components)
    ∧ (∀ t : String,
      (Execute s { ctype := "set_text", params := .setTextP { id := id, text := t } } g).2.2
          = some ("component not found: " ++ id)
      ∧ (Execute s { ctype := "set_text", params := .setTextP { id := id, text := t } } g).1.canvas.components
          = s.canvas.components)
    ∧ ((Execute s { ctype := "remove_component", params := .removeP id } g).2.2
          = some ("component not found: " ++ id)
      ∧ (Execute s { ctype := "remove_component", params := .removeP id } g).1.canvas.components
          = s.canvas.components) := by
  refine ⟨?_, ?_, ?_, ?_, ?_⟩
  · intro x y
    have hm : moveComponent (saveState s) (.moveP { id := id, x := x, y := y })
        = (saveState s, some ("component not found: " ++ id)) := by
      unfold moveComponent
      simp only [asMove, saveState]
      rw [updateFirst_eq_none id _ s.canvas.components habs]
    rw [Execute_move, hm]
    exact ⟨rfl, rfl⟩
  · intro w h
    have hm : resizeComponent (saveState s) (.resizeP { id := id, width := w, height := h })
        = (saveState s, some ("component not found: " ++ id)) := by
      unfold resizeComponent
      simp only [asResize, saveState]
      rw [updateFirst_eq_none id _ s.canvas.components habs]
    rw [Execute_resize, hm]
    exact ⟨rfl, rfl⟩
  · intro st
    have hm : styleComponent (saveState s) (.styleP { id := id, style := st })
        = (saveState s, some ("component not found: " ++ id)) := by
      unfold styleComponent
      simp only [asStyle, saveState]
      rw [updateFirst_eq_none id _ s.canvas.components habs]
    rw [Execute_style, hm]
    exact ⟨rfl, rfl⟩
  · intro t
    have hm : setText (saveState s) (.setTextP { id := id, text := t })
        = (saveState s, some ("component not found: " ++ id)) := by
      unfold setText
      simp only [asSetText, saveState]
      rw [updateFirst_eq_none id _ s.canvas.components habs]
    rw [Execute_setText, hm]
    exact ⟨rfl, rfl⟩
  · have hm : removeComponent (saveState s) (.removeP id)
        = (saveState s, some ("component not found: " ++ id)) := by
      unfold removeComponent
      simp only [asID, saveState]
      rw [removeFirst_eq_none id s.canvas.components habs]
    rw [Execute_remove, hm]
    exact ⟨rfl, rfl⟩

/-- C3 witness: not-found totality at a concrete session and id. -/
theorem not_found_total_witness :
    ((Execute wS { ctype := "move_component", params := .moveP { id := "zz", x := 1, y := 2 } } wG).2.2
        = some ("component not found: " ++ "zz")
      ∧ (Execute wS { ctype := "move_component", params := .moveP { id := "zz", x := 1, y := 2 } } wG).1.canvas.components
        = wS.canvas.components)
    ∧ ((Execute wS { ctype := "remove_component", params := .removeP "zz" } wG).2.2
        = some ("component not found: " ++ "zz")
      ∧ (Execute wS { ctype := "remove_component", params := .removeP "zz" } wG).1.canvas.components
        = wS.canvas.components) := by
  have h := not_found_total wS wG "zz" (by decide)
  exact ⟨h.1 1 2, h.2.2.2.2⟩

/-! ### Error shapes of the dispatch targets on well-formed payloads -/

lemma addComponent_err (s : Session) (ps : RawParams) (g : GenState)
    (hm : ∀ m, ps ≠ .malformed m) :
    (addComponent s ps g).2.2 = none := by
  cases ps <;> first
    | exact absurd rfl (hm _)
    | rfl

lemma removeComponent_err (s : Session) (ps : RawParams)
    (hm : ∀ m, ps ≠ .malformed m) :
    (removeComponent s ps).2 = none
      ∨ ∃ id, (removeComponent s ps).2 = some ("component not found: " ++ id) := by
  unfold removeComponent
  cases ps <;> first
    | exact absurd rfl (hm _)
    | (dsimp only [asID]
       split
       · exact Or.inl rfl
       · exact Or.inr ⟨_, rfl⟩)

lemma moveComponent_err (s : Session) (ps : RawParams)
    (hm : ∀ m, ps ≠ .malformed m) :
    (moveComponent s ps).2 = none
      ∨ ∃ id, (moveComponent s ps).2 = some ("component not found: " ++ id) := by
  unfold moveComponent
  cases ps <;> first
    | exact absurd rfl (hm _)
    | (dsimp only [asMove]
       split
       · exact Or.inl rfl
       · exact Or.inr ⟨_, rfl⟩)

lemma resizeComponent_err (s : Session) (ps : RawParams)
    (hm : ∀ m, ps ≠ .malformed m) :
    (resizeComponent s ps).2 = none
      ∨ ∃ id, (resizeComponent s ps).2 = some ("component not found: " ++ id) := by
  unfold resizeComponent
  cases ps <;> first
    | exact absurd rfl (hm _)
    | (dsimp only [asResize]
       split
       · exact Or.inl rfl
       · exact Or.inr ⟨_, rfl⟩)

lemma styleComponent_err (s : Session) (ps : RawParams)
    (hm : ∀ m, ps ≠ .malformed m) :
    (styleComponent s ps).2 = none
      ∨ ∃ id, (styleComponent s ps).2 = some ("component not found: " ++ id) := by
  unfold styleComponent
  cases ps <;> first
    | exact absurd rfl (hm _)
    | (dsimp only [asStyle]
       split
       · exact Or.inl rfl
       · exact Or.inr ⟨_, rfl⟩)

lemma setText_err (s : Session) (ps : RawParams)
    (hm : ∀ m, ps ≠ .malformed m) :
    (setText s ps).2 = none
      ∨ ∃ id, (setText s ps).2 = some ("component not found: " ++ id) := by
  unfold setText
  cases ps <;> first
    | exact absurd rfl (hm _)
    | (dsimp only [asSetText]
       split
       · exact Or.inl rfl
       · exact Or.inr ⟨_, rfl⟩)

/-- C7 (amended): the session's `history` field starts empty and is
never modified — `Execute` does not append the executed command to it,
and `Undo`/`Redo` neither consult nor change it. -/
theorem history_untouched (s : Session) (cmd : Command) (g : GenState)
    (name : String) (w h : Int) :
    (Execute s cmd g).1.history = s.history
      ∧ (Undo s).1.history = s.history
      ∧ (Redo s).1.history = s.history
      ∧ (NewSession name w h).history = [] := by
  refine ⟨(execute_frame s cmd g).2.2, ?_, ?_, rfl⟩
  · unfold Undo
    cases h' : s.undoStack.getLast? <;> simp [h']
  · unfold Redo
    cases h' : s.redoStack.getLast? <;> simp [h']

/-- C7 counterexample: after a concrete `Execute` of an add command on a
fresh session, the command has *not* been appended to `history` (the log
is still empty). -/
theorem history_not_appended :
    (Execute wS wAddCmd wG).1.history ≠ wS.history ++ [wAddCmd] := by
  rw [(execute_frame wS wAddCmd wG).2.2]
  decide

/-- C8 (amended): `Execute` fails with the "unknown command type" error
exactly on type strings outside the *six* dispatched kinds; for a
command of a dispatched kind with a well-formed payload the error is
either `nil` or a not-found error, never the unknown-kind one. -/
theorem unknown_kind_exact (s : Session) (g : GenState) :
    (∀ cmd : Command, cmd.ctype ∉ handledKinds →
      (Execute s cmd g).2.2 = some ("unknown command type: " ++ cmd.ctype))
    ∧ (∀ cmd : Command, cmd.ctype ∈ handledKinds →
        (∀ m, cmd.params ≠ .malformed m) →
        (Execute s cmd g).2.2 = none
          ∨ ∃ id, (Execute s cmd g).2.2 = some ("component not found: " ++ id)) := by
  constructor
  · intro cmd hmem
    obtain ⟨ct, ps⟩ := cmd
    simp only [handledKinds, List.mem_cons, List.not_mem_nil, or_false,
      not_or] at hmem
    obtain ⟨h1, h2, h3, h4, h5, h6⟩ := hmem
    unfold Execute
    split <;> simp_all
  · intro cmd hmem hm
    obtain ⟨ct, ps⟩ := cmd
    dsimp only at hm ⊢
    simp only [handledKinds, List.mem_cons, List.not_mem_nil, or_false] at hmem
    rcases hmem with h | h | h | h | h | h <;> subst h
    · rw [Execute_add]
      exact Or.inl (addComponent_err _ ps g hm)
    · rw [Execute_remove]
      exact removeComponent_err _ ps hm
    · rw [Execute_move]
      exact moveComponent_err _ ps hm
    · rw [Execute_resize]
      exact resizeComponent_err _ ps hm
    · rw [Execute_style]
      exact styleComponent_err _ ps hm
    · rw [Execute_setText]
      exact setText_err _ ps hm

/-- C8 witness: a concrete unrecognized kind errors; a concrete
dispatched kind with a well-formed payload does not produce the
unknown-kind error shape. -/
theorem unknown_kind_exact_witness :
    ((Execute wS { ctype := "save", params := .removeP "" } wG).2.2
        = some ("unknown command type: " ++ "save"))
    ∧ ((Execute wS { ctype := "set_text", params := .setTextP { id := "zz", text := "t" } } wG).2.2 = none
        ∨ ∃ id, (Execute wS { ctype := "set_text", params := .setTextP { id := "zz", text := "t" } } wG).2.2
              = some ("component not found: " ++ id)) := by
  have h := unknown_kind_exact wS wG
  exact ⟨h.1 _ (by decide), h.2 _ (by decide) (fun m => by simp)⟩

/-- C8 counterexample: `undo` is one of the eleven declared protocol
kinds, yet `Execute` fails on it with the "unknown command type"
error — only six kinds are dispatched. -/
theorem unknown_kind_cex :
    "undo" ∈ declaredKinds
      ∧ (Execute wS { ctype := "undo", params := .removeP "" } wG).2.2
          = some "unknown command type: undo" := by
  exact ⟨by decide, by decide⟩

/-- C9 (code bug): `Generator.GenerateJSON` does not serialize the
canvas it was constructed with — it returns the constant string `"{}"`
for every canvas, so its output neither depends on nor represents the
canvas content. -/
theorem generateJSON_stub (c₁ c₂ : Canvas) :
    GenerateJSON (NewGenerator c₁) = "\x7b\x7d"
      ∧ GenerateJSON (NewGenerator c₁) = GenerateJSON (NewGenerator c₂) :=
  ⟨rfl, rfl⟩

/-- C10: `AddList`, `AddProgress`, `SetTheme`, and `Resize` mutate the
canvas directly: they leave both history stacks and the command log
exactly as they were (no snapshot, no redo clearing, no recorded
command), so an immediate `Undo()` does not revert them — with an empty
undo stack it returns `false` leaving the mutation in place, and
otherwise it restores the pre-existing top snapshot, which was captured
before the convenience call.  `Clear`, in contrast, snapshots first. -/
theorem convenience_ops_skip_history (s : Session) (g : GenState) :
    (∀ (nm : String) (items : Option (List String)) (x y w h : Int),
      (AddList s nm items x y w h g).1.undoStack = s.undoStack
        ∧ (AddList s nm items x y w h g).1.redoStack = s.redoStack
        ∧ (AddList s nm items x y w h g).1.history = s.history
        ∧ (AddList s nm items x y w h g).1.canvas.components.length
            = s.canvas.components.length + 1
        ∧ (s.undoStack = [] →
            (Undo (AddList s nm items x y w h g).1).2 = false
              ∧ (Undo (AddList s nm items x y w h g).1).1
                  = (AddList s nm items x y w h g).1)
        ∧ (∀ us top, s.undoStack = us ++ [top] →
            (Undo (AddList s nm items x y w h g).1).1.canvas = top))
    ∧ (∀ (nm : String) (v : Rat) (x y w : Int),
      (AddProgress s nm v x y w g).1.undoStack = s.undoStack
        ∧ (AddProgress s nm v x y w g).1.redoStack = s.redoStack
        ∧ (AddProgress s nm v x y w g).1.history = s.history
        ∧ (AddProgress s nm v x y w g).1.canvas.components.length
            = s.canvas.components.length + 1
        ∧ (s.undoStack = [] →
            (Undo (AddProgress s nm v x y w g).1).2 = false
              ∧ (Undo (AddProgress s nm v x y w g).1).1
                  = (AddProgress s nm v x y w g).1))
    ∧ (∀ th : String,
      (SetTheme s th).undoStack = s.undoStack
        ∧ (SetTheme s th).redoStack = s.redoStack
        ∧ (SetTheme s th).history = s.history
        ∧ (SetTheme s th).canvas.theme = th
        ∧ (s.undoStack = [] →
            (Undo (SetTheme s th)).2 = false
              ∧ (Undo (SetTheme s th)).1 = SetTheme s th)
        ∧ (∀ us top, s.undoStack = us ++ [top] →
            (Undo (SetTheme s th)).1.canvas = top))
    ∧ (∀ w h : Int,
      (Resize s w h).undoStack = s.undoStack
        ∧ (Resize s w h).redoStack = s.redoStack
        ∧ (Resize s w h).history = s.history
        ∧ (Resize s w h).canvas.width = w
        ∧ (Resize s w h).canvas.height = h
        ∧ (s.undoStack = [] →
            (Undo (Resize s w h)).2 = false
              ∧ (Undo (Resize s w h)).1 = Resize s w h))
    ∧ ((Clear s).undoStack = s.undoStack ++ [s.canvas]
        ∧ (Clear s).redoStack = []
        ∧ (Clear s).canvas.components = []) := by
  refine ⟨?_, ?_, ?_, ?_, rfl, rfl, rfl⟩
  · intro nm items x y w h
    refine ⟨rfl, rfl, rfl, by simp [AddList, NewComponent, generateID], ?_, ?_⟩
    · intro he
      have := Undo_empty (AddList s nm items x y w h g).1 he
      exact ⟨by rw [this], by rw [this]⟩
    · intro us top htop
      have := Undo_push (AddList s nm items x y w h g).1 us top htop
      rw [this]
  · intro nm v x y w
    refine ⟨rfl, rfl, rfl, by simp [AddProgress, NewComponent, generateID], ?_⟩
    intro he
    have := Undo_empty (AddProgress s nm v x y w g).1 he
    exact ⟨by rw [this], by rw [this]⟩
  · intro th
    refine ⟨rfl, rfl, rfl, rfl, ?_, ?_⟩
    · intro he
      have := Undo_empty (SetTheme s th) he
      exact ⟨by rw [this], by rw [this]⟩
    · intro us top htop
      have := Undo_push (SetTheme s th) us top htop
      rw [this]
  · intro w h
    refine ⟨rfl, rfl, rfl, rfl, rfl, ?_⟩
    intro he
    have := Undo_empty (Resize s w h) he
    exact ⟨by rw [this], by rw [this]⟩

/-- C10 witness: the frame facts at concrete sessions — an empty-stack
session (`Undo` after `AddList` returns `false` and changes nothing) and
a one-snapshot session (`Undo` after `SetTheme` restores the
pre-existing snapshot, not the pre-`SetTheme` canvas). -/
theorem convenience_ops_skip_history_witness :
    ((AddList wS "menu" (some ["a"]) 0 0 5 5 wG).1.undoStack = wS.undoStack
      ∧ (Undo (AddList wS "menu" (some ["a"]) 0 0 5 5 wG).1).2 = false
      ∧ (Undo (AddList wS "menu" (some ["a"]) 0 0 5 5 wG).1).1
          = (AddList wS "menu" (some ["a"]) 0 0 5 5 wG).1)
    ∧ ((SetTheme wS2 "neon").undoStack = wS2.undoStack
      ∧ (Undo (SetTheme wS2 "neon")).1.canvas = wS.canvas) := by
  have h1 := (convenience_ops_skip_history wS wG).1 "menu" (some ["a"]) 0 0 5 5
  have h2 := (convenience_ops_skip_history wS2 wG).2.2.1 "neon"
  have he : wS.undoStack = [] := rfl
  have htop : wS2.undoStack = [] ++ [wS.canvas] := by decide
  exact ⟨⟨h1.1, (h1.2.2.2.2.1 he).1, (h1.2.2.2.2.1 he).2⟩,
         ⟨h2.1, h2.2.2.2.2.2 [] wS.canvas htop⟩⟩

/-! ### Structure of the generated output -/

/-- `Generate` splits into a fixed head, the per-component model fields
in canvas order, a fixed middle, the per-component view blocks in canvas
order, and a fixed tail. -/
lemma generate_decomp (g : Generator) :
    Generate g = genHead ++ emitFields 0 g.canvas.components ++ genMid
      ++ emitViews 0 g.canvas.components ++ genTail := by
  simp only [Generate, generateModel, generateView, genHead, genMid, genTail,
    String.append_assoc]

/-- C6 (amended): `Generate` is a pure function of the canvas — calling
it twice on the same canvas gives identical output — and its output is a
fixed head, the per-component model fields emitted in canvas order, a
fixed middle, the per-component view blocks emitted in canvas order, and
a fixed tail; the fixed sections are independent of the canvas, so two
canvases differing only in component order differ only within the
per-component sections.  (The per-component parts embed each component's
positional index, so they are not in general mere reorderings of one
another — see the counterexample.) -/
theorem generate_deterministic_structured (c : Canvas) :
    Generate (NewGenerator c) = Generate (NewGenerator c)
      ∧ Generate (NewGenerator c)
          = genHead ++ emitFields 0 c.components ++ genMid
            ++ emitViews 0 c.components ++ genTail :=
  ⟨rfl, generate_decomp _⟩

/-- C6 counterexample: two canvases that differ only in the order of
their two components (an input and a box), whose generated outputs are
not character-permutations of each other — so they do not differ merely
in the order of the per-component emitted blocks: the blocks embed the
component's positional index (`input0` vs `input1`, `box0` vs `box1`),
changing bytes inside the blocks. -/
theorem generate_order_cex :
    (cx1.name = cx2.name ∧ cx1.width = cx2.width ∧ cx1.height = cx2.height
      ∧ cx1.theme = cx2.theme ∧ cx2.components.Perm cx1.components
      ∧ cx1.components ≠ cx2.components)
    ∧ ¬ (Generate (NewGenerator cx1)).data.Perm
          (Generate (NewGenerator cx2)).data := by
  refine ⟨⟨rfl, rfl, rfl, rfl, ?_, by decide⟩, ?_⟩
  · show ([cBox, cInput] : List Component).Perm [cInput, cBox]
    exact List.Perm.swap cInput cBox []
  · intro h
    have e1 : Generate (NewGenerator cx1)
        = genHead ++ emitFields 0 cx1.components ++ genMid
          ++ emitViews 0 cx1.components ++ genTail := generate_decomp _
    have e2 : Generate (NewGenerator cx2)
        = genHead ++ emitFields 0 cx2.components ++ genMid
          ++ emitViews 0 cx2.components ++ genTail := generate_decomp _
    rw [e1, e2] at h
    have hc := h.count_eq '0'
    simp only [String.data_append, List.count_append] at hc
    have v1 : (emitFields 0 cx1.components).data.count '0' = 1 := by decide
    have v2 : (emitFields 0 cx2.components).data.count '0' = 0 := by decide
    have v3 : (emitViews 0 cx1.components).data.count '0' = 1 := by decide
    have v4 : (emitViews 0 cx2.components).data.count '0' = 3 := by decide
    omega

/-! ### Identifier uniqueness -/

lemma hexDigit_inj_fin : ∀ a b : Fin 16, hexDigit a.val = hexDigit b.val → a = b := by
  decide

lemma hexDigit_inj (a b : Nat) (ha : a < 16) (hb : b < 16)
    (h : hexDigit a = hexDigit b) : a = b := by
  have := hexDigit_inj_fin ⟨a, ha⟩ ⟨b, hb⟩ h
  simpa using this

/-- Two generated id strings are equal only if the two post-increment
counter values agree modulo `2^16` — the two counter bytes sit at fixed
positions of the fixed-length id. -/
lemma idString_inj {t t' c c' : Nat} {r r' : Nat × Nat × Nat × Nat}
    (h : idString t r c = idString t' r' c') : c % 65536 = c' % 65536 := by
  unfold idString hexByte at h
  rw [show "comp_".data = ['c', 'o', 'm', 'p', '_'] from rfl] at h
  simp only [String.ext_iff, List.cons_append, List.nil_append,
    List.cons.injEq, eq_self_iff_true, true_and, and_true] at h
  obtain ⟨-, -, -, -, h5, h6, h7, h8, -⟩ := h
  have e5 := hexDigit_inj _ _ (by omega) (by omega) h5
  have e6 := hexDigit_inj _ _ (by omega) (by omega) h6
  have e7 := hexDigit_inj _ _ (by omega) (by omega) h7
  have e8 := hexDigit_inj _ _ (by omega) (by omega) h8
  omega

lemma idAt_ne (g : GenState) (i j : Nat) (hij : i < j) (hw : j - i < 65536) :
    idAt g i ≠ idAt g j := by
  intro h
  have hm := idString_inj h
  have h1 : ((g.counter + i + 1) % 2 ^ 64) % 65536 = (g.counter + i + 1) % 65536 :=
    Nat.mod_mod_of_dvd _ (by decide)
  have h2 : ((g.counter + j + 1) % 2 ^ 64) % 65536 = (g.counter + j + 1) % 65536 :=
    Nat.mod_mod_of_dvd _ (by decide)
  rw [h1, h2] at hm
  omega

lemma generateID_eq (g : GenState) :
    generateID g = (idAt g 0,
      { g with counter := (g.counter + 1) % 2 ^ 64, tick := g.tick + 1 }) := rfl

lemma idAt_advance (g : GenState) (k : Nat) :
    idAt { g with counter := (g.counter + 1) % 2 ^ 64, tick := g.tick + 1 } k
      = idAt g (k + 1) := by
  unfold idAt
  have h1 : g.tick + 1 + k = g.tick + (k + 1) := by omega
  have h2 : ((g.counter + 1) % 2 ^ 64 + k + 1) % 2 ^ 64
      = (g.counter + (k + 1) + 1) % 2 ^ 64 := by omega
  rw [h1, h2]

/-- The component appended by a well-formed add command carries the id
freshly drawn from the generator, and the run advances the generator by
one step. -/
lemma addComponent_step (s : Session) (p : AddComponentParams) (g : GenState) :
    (addComponent s (.addP p) g).1.canvas.components.map (·.id)
      = s.canvas.components.map (·.id) ++ [idAt g 0]
    ∧ (addComponent s (.addP p) g).2.1
      = { g with counter := (g.counter + 1) % 2 ^ 64, tick := g.tick + 1 } := by
  constructor
  · unfold addComponent asAdd NewComponent
    rw [generateID_eq]
    cases hst : p.style <;>
      simp [hst, apply_ite (f := Component.id)]
  · rfl

/-- The ids of the canvas after a run of add commands: the original ids
followed by one fresh id per command, in order. -/
lemma runAdds_ids (ps : List AddComponentParams) :
    ∀ (s : Session) (g : GenState),
      (runAdds s ps g).1.canvas.components.map (·.id)
        = s.canvas.components.map (·.id)
          ++ (List.range ps.length).map (idAt g) := by
  induction ps with
  | nil => intro s g; simp [runAdds]
  | cons p rest ih =>
    intro s g
    have hstep := addComponent_step (saveState s) p g
    have hrw : runAdds s (p :: rest) g
        = runAdds (addComponent (saveState s) (.addP p) g).1 rest
            (addComponent (saveState s) (.addP p) g).2.1 := by
      rw [runAdds, Execute_add]
    rw [hrw, ih, hstep.1, hstep.2]
    have hshift : (List.range rest.length).map
        (idAt { g with counter := (g.counter + 1) % 2 ^ 64, tick := g.tick + 1 })
        = (List.range rest.length).map (fun k => idAt g (k + 1)) := by
      apply List.map_congr_left
      intro k _
      exact idAt_advance g k
    rw [hshift]
    have hrange : (List.range (p :: rest).length).map (idAt g)
        = idAt g 0 :: (List.range rest.length).map (fun k => idAt g (k + 1)) := by
      rw [List.length_cons, List.range_succ_eq_map]
      simp [Function.comp_def]
    rw [hrange]
    simp [saveState]

/-- C4: starting from a fresh session, any run of at most 10 000
successful AddComponent commands yields a canvas in which no two
components share an id. -/
theorem add_ids_unique (name : String) (w h : Int)
    (ps : List AddComponentParams) (g : GenState)
    (hn : ps.length ≤ 10000) :
    (runAdds (NewSession name w h) ps g).1.canvas.components.Pairwise
      (fun a b => a.id ≠ b.id) := by
  have hids := runAdds_ids ps (NewSession name w h) g
  rw [show (NewSession name w h).canvas.components.map (·.id) = [] from rfl,
    List.nil_append] at hids
  have hmap : ((runAdds (NewSession name w h) ps g).1.canvas.components.map
      (·.id)).Pairwise (· ≠ ·) := by
    rw [hids]
    refine List.pairwise_map.mpr ?_
    have hr : (List.range ps.length).Pairwise (· < ·) :=
      List.pairwise_lt_range ps.length
    refine hr.imp_of_mem ?_
    intro i j hi hj hij
    have hjn := List.mem_range.mp hj
    exact idAt_ne g i j hij (by omega)
  exact List.pairwise_map.mp hmap

/-- C4 witness: a concrete two-command run produces distinct ids. -/
theorem add_ids_unique_witness :
    ([wAddP, wAddP].length ≤ 10000)
      ∧ (runAdds (NewSession "Demo" 80 24) [wAddP, wAddP] wG).1.canvas.components.Pairwise
          (fun a b => a.id ≠ b.id) :=
  ⟨by decide, add_ids_unique "Demo" 80 24 [wAddP, wAddP] wG (by decide)⟩

/-! ### Looking up keys in marshalled objects -/

lemma lookup_append (l₁ l₂ : List (String × Json)) (k : String) :
    (l₁ ++ l₂).lookup k = ((l₁.lookup k).or (l₂.lookup k)) := by
  induction l₁ with
  | nil => simp [List.lookup]
  | cons a t ih =>
    obtain ⟨k', v⟩ := a
    by_cases h : k == k'
    · simp [List.lookup, h]
    · simp only [List.cons_append, List.lookup, h]
      exact ih

lemma lookup_optF_self (k : String) (p : Prop) [Decidable p] (v : Json) :
    (optF k p v).lookup k = if p then some v else none := by
  unfold optF
  split <;> simp [List.lookup]

lemma lookup_optF_ne (k' k : String) (p : Prop) [Decidable p] (v : Json)
    (h : (k' == k) = false) :
    (optF k p v).lookup k' = none := by
  unfold optF
  split <;> simp [List.lookup, h]

/-! ### Unmarshalling a marshalled value recovers it -/

lemma decodePosition_enc (p : Position) : decodePosition (encPosition p) = .ok p := by
  simp [decodePosition, encPosition, getInt, List.lookup, Bind.bind, Except.bind]

lemma decodeSize_enc (s : Size) : decodeSize (encSize s) = .ok s := by
  simp [decodeSize, encSize, getInt, List.lookup, Bind.bind, Except.bind]

lemma decodeBorder_enc (b : Border) : decodeBorder (encBorder b) = .ok b := by
  simp [decodeBorder, encBorder, getStr, getBool, List.lookup, Bind.bind, Except.bind]

lemma decodePadding_enc (p : Padding) : decodePadding (encPadding p) = .ok p := by
  simp [decodePadding, encPadding, getInt, List.lookup, Bind.bind, Except.bind]

lemma decodeMargin_enc (m : Margin) : decodeMargin (encMargin m) = .ok m := by
  simp [decodeMargin, encMargin, getInt, List.lookup, Bind.bind, Except.bind]

lemma getStr_found (f : List (String × Json)) (k s : String)
    (h : f.lookup k = some (.str s)) : getStr f k = .ok s := by
  unfold getStr
  rw [h]

lemma getInt_found (f : List (String × Json)) (k : String) (x : Int)
    (h : f.lookup k = some (.num (x : Rat))) : getInt f k = .ok x := by
  unfold getInt
  rw [h]
  simp

lemma getStr_opt (f : List (String × Json)) (k s : String)
    (h : f.lookup k = if s ≠ "" then some (.str s) else none) :
    getStr f k = .ok s := by
  unfold getStr
  rw [h]
  rcases eq_or_ne s "" with hs | hs
  · subst hs; simp
  · simp [hs]

lemma getBool_opt (f : List (String × Json)) (k : String) (b : Bool)
    (h : f.lookup k = if b = true then some (.bool b) else none) :
    getBool f k = .ok b := by
  unfold getBool
  rw [h]
  cases b <;> simp

lemma getObj_found {α : Type} (f : List (String × Json)) (k : String)
    (dec : Json → Except String α) (z z' : α) (j : Json)
    (h : f.lookup k = some j) (hd : dec j = .ok z') :
    getObj f k dec z = .ok z' := by
  unfold getObj
  rw [h]
  exact hd

lemma getBorder_opt (f : List (String × Json)) (o : Option Border)
    (h : f.lookup "border"
        = if o.isSome then some (encBorder (o.getD zeroBorder)) else none) :
    getBorder f = .ok o := by
  unfold getBorder
  rw [h]
  cases o with
  | none => simp
  | some b =>
    have hd := decodeBorder_enc b
    simp only [encBorder] at hd ⊢
    simp [hd, Bind.bind, Except.bind]

lemma decodeStrList_enc (l : List String) :
    decodeStrList (l.map Json.str) = .ok l := by
  induction l with
  | nil => rfl
  | cons x xs ih =>
    simp [decodeStrList, decodeStrElem, ih, Bind.bind, Except.bind]

lemma getItems_opt (f : List (String × Json)) (o : Option (List String))
    (ho : o ≠ some [])
    (h : f.lookup "items"
        = if o.getD [] ≠ [] then some (.arr ((o.getD []).map .str)) else none) :
    getItems f = .ok o := by
  unfold getItems
  rw [h]
  match o with
  | none => simp
  | some [] => exact absurd rfl ho
  | some (x :: xs) =>
    have hm := decodeStrList_enc (x :: xs)
    simp only [List.map_cons] at hm
    simp only [Option.getD] at *
    simp [hm, Bind.bind, Except.bind]

lemma getValue_opt (f : List (String × Json)) (o : Option Rat)
    (h : f.lookup "value" = if o.isSome then some (.num (o.getD 0)) else none) :
    getValue f = .ok o := by
  unfold getValue
  rw [h]
  cases o <;> simp

/-- Unmarshalling an object whose fields carry the marshalled values of
a `Style` recovers that style. -/
lemma decodeStyle_fields (st : Style) (f : List (String × Json))
    (h1 : f.lookup "foreground" = if st.foreground ≠ "" then some (.str st.foreground) else none)
    (h2 : f.lookup "background" = if st.background ≠ "" then some (.str st.background) else none)
    (h3 : f.lookup "bold" = if st.bold = true then some (.bool st.bold) else none)
    (h4 : f.lookup "italic" = if st.italic = true then some (.bool st.italic) else none)
    (h5 : f.lookup "underline" = if st.underline = true then some (.bool st.underline) else none)
    (h6 : f.lookup "border" = if st.border.isSome then some (encBorder (st.border.getD zeroBorder)) else none)
    (h7 : f.lookup "padding" = some (encPadding st.padding))
    (h8 : f.lookup "margin" = some (encMargin st.margin))
    (h9 : f.lookup "align" = if st.align ≠ "" then some (.str st.align) else none) :
    decodeStyle (.obj f) = .ok st := by
  have e1 := getStr_opt f "foreground" st.foreground h1
  have e2 := getStr_opt f "background" st.background h2
  have e3 := getBool_opt f "bold" st.bold h3
  have e4 := getBool_opt f "italic" st.italic h4
  have e5 := getBool_opt f "underline" st.underline h5
  have e6 := getBorder_opt f st.border h6
  have e7 := getObj_found f "padding" decodePadding
    { top := 0, right := 0, bottom := 0, left := 0 } st.padding _ h7
    (decodePadding_enc st.padding)
  have e8 := getObj_found f "margin" decodeMargin
    { top := 0, right := 0, bottom := 0, left := 0 } st.margin _ h8
    (decodeMargin_enc st.margin)
  have e9 := getStr_opt f "align" st.align h9
  simp [decodeStyle, e1, e2, e3, e4, e5, e6, e7, e8, e9, Bind.bind, Except.bind]

lemma decodeStyle_enc (st : Style) : decodeStyle (encStyle st) = .ok st := by
  refine decodeStyle_fields st _ ?_ ?_ ?_ ?_ ?_ ?_ ?_ ?_ ?_ <;>
    simp [encStyle, lookup_append, lookup_optF_self, lookup_optF_ne, List.lookup]

/-- Unmarshalling an object whose fields carry the marshalled values of
a `Component` recovers it, provided its items slice is not empty but
non-nil (`omitempty` drops an empty slice, which unmarshals back to
nil). -/
lemma decodeComponent_fields (c : Component) (f : List (String × Json))
    (ho : c.items ≠ some [])
    (h1 : f.lookup "id" = some (.str c.id))
    (h2 : f.lookup "type" = some (.str c.ctype))
    (h3 : f.lookup "name" = some (.str c.name))
    (h4 : f.lookup "position" = some (encPosition c.position))
    (h5 : f.lookup "size" = some (encSize c.size))
    (h6 : f.lookup "style" = some (encStyle c.style))
    (h7 : f.lookup "text" = if c.text ≠ "" then some (.str c.text) else none)
    (h8 : f.lookup "placeholder" = if c.placeholder ≠ "" then some (.str c.placeholder) else none)
    (h9 : f.lookup "items" = if c.items.getD [] ≠ [] then some (.arr ((c.items.getD []).map .str)) else none)
    (h10 : f.lookup "value" = if c.value.isSome then some (.num (c.value.getD 0)) else none)
    (h11 : f.lookup "focused" = if c.focused = true then some (.bool c.focused) else none)
    (h12 : f.lookup "selected" = if c.selected = true then some (.bool c.selected) else none)
    (h13 : f.lookup "disabled" = if c.disabled = true then some (.bool c.disabled) else none) :
    decodeComponent (.obj f) = .ok c := by
  have e1 := getStr_found f "id" c.id h1
  have e2 := getStr_found f "type" c.ctype h2
  have e3 := getStr_found f "name" c.name h3
  have e4 := getObj_found f "position" decodePosition { x := 0, y := 0 }
    c.position _ h4 (decodePosition_enc c.position)
  have e5 := getObj_found f "size" decodeSize { width := 0, height := 0 }
    c.size _ h5 (decodeSize_enc c.size)
  have e6 := getObj_found f "style" decodeStyle zeroStyle
    c.style _ h6 (decodeStyle_enc c.style)
  have e7 := getStr_opt f "text" c.text h7
  have e8 := getStr_opt f "placeholder" c.placeholder h8
  have e9 := getItems_opt f c.items ho h9
  have e10 := getValue_opt f c.value h10
  have e11 := getBool_opt f "focused" c.focused h11
  have e12 := getBool_opt f "selected" c.selected h12
  have e13 := getBool_opt f "disabled" c.disabled h13
  simp [decodeComponent, e1, e2, e3, e4, e5, e6, e7, e8, e9, e10, e11, e12,
    e13, Bind.bind, Except.bind]

lemma decodeComponent_enc (c : Component) (ho : c.items ≠ some []) :
    decodeComponent (encComponent c) = .ok c := by
  refine decodeComponent_fields c _ ho ?_ ?_ ?_ ?_ ?_ ?_ ?_ ?_ ?_ ?_ ?_ ?_ ?_ <;>
    simp [encComponent, lookup_append, lookup_optF_self, lookup_optF_ne, List.lookup]

lemma decodeComponentList_enc (l : List Component)
    (h : ∀ c ∈ l, c.items ≠ some []) :
    decodeComponentList (l.map encComponent) = .ok l := by
  induction l with
  | nil => rfl
  | cons c cs ih =>
    have hc := decodeComponent_enc c (h c (List.mem_cons_self c cs))
    have hcs := ih fun x hx => h x (List.mem_cons_of_mem c hx)
    simp [decodeComponentList, hc, hcs, Bind.bind, Except.bind]

/-- Unmarshalling the marshalled canvas recovers it, provided no
component has an empty-but-non-nil items slice. -/
lemma decodeCanvas_enc (c : Canvas)
    (h : ∀ comp ∈ c.components, comp.items ≠ some []) :
    decodeCanvas (encCanvas c) = .ok c := by
  have e1 : (encCanvas c) = .obj
      [("name", .str c.name), ("width", .num (c.width : Rat)),
       ("height", .num (c.height : Rat)),
       ("components", .arr (c.components.map encComponent)),
       ("theme", .str c.theme)] := rfl
  rw [e1]
  have hm := decodeComponentList_enc c.components h
  simp [decodeCanvas, getStr, getInt, getComponents, List.lookup, hm,
    Bind.bind, Except.bind]

/-- C5 (amended): `Load(ExportJSON(C))` reproduces the canvas exactly
for every canvas — reachable or not — in which no component carries an
empty-but-non-nil `Items` slice.  (`AddList` with an empty slice
produces the one reachable exception: `omitempty` drops the empty list
and the load yields a nil one, so the result is not deep-equal.) -/
theorem export_load_roundtrip (s : Session)
    (h : ∀ comp ∈ s.canvas.components, comp.items ≠ some []) :
    LoadFromJSON s (ExportJSON s) = .ok s := by
  unfold LoadFromJSON ExportJSON
  rw [decodeCanvas_enc s.canvas h]

/-- C5 witness: the round trip at the concrete post-add session. -/
theorem export_load_roundtrip_witness :
    (∀ comp ∈ wS2.canvas.components, comp.items ≠ some [])
      ∧ LoadFromJSON wS2 (ExportJSON wS2) = .ok wS2 :=
  ⟨by decide, export_load_roundtrip wS2 (by decide)⟩

/-- C5 counterexample: the session reached from a fresh session by
`AddList` with an empty (non-nil) items slice does *not* round-trip:
export then load yields a canvas whose component has a nil items slice
instead of the empty one, so the loaded canvas is not deep-equal to the
exported one. -/
theorem export_load_roundtrip_cex :
    sEmptyItems.canvas.components.map (·.items) = [some []]
      ∧ (LoadFromJSON sEmptyItems (ExportJSON sEmptyItems)).toOption.map
          (fun s => s.canvas.components.map (·.items)) = some [none]
      ∧ (LoadFromJSON sEmptyItems (ExportJSON sEmptyItems)).toOption
          ≠ some sEmptyItems := by
  refine ⟨by decide, by decide, by decide⟩

end MakeaTUI
